import Mathlib

/-!
Shallow embedding of the MLflow-projects core (florianblume/mlflow) in Lean 4.

The embedding covers, faithfully to the Python source:
* `mlflow/projects/_project_spec.py` — project descriptor loading, entry
  points, parameter validation/resolution and command rendering;
* `mlflow/projects/submitted_run.py` — the local run handle and its
  `cancel` logic;
* `mlflow/projects/backend/local.py` — the environment-selection step of
  `LocalBackend.run` and `_run_entry_point`;
* `mlflow/projects/docker.py` — the build-context staging and cleanup of
  `DockerRunEnvironment.prepare_environment`.

Python dictionaries are modelled as association lists in insertion order
(CPython ≥ 3.7 preserves insertion order, and the source iterates dicts in
that order).  Filesystem, network, process and YAML effects are modelled by
explicit "world" records of pure functions plus event traces.  Machine-level
details (bytes of YAML, file descriptors) are outside the claims and are not
modelled.
-/

namespace MLF

/-- First-match association-list lookup; models Python `dict` lookup
(`d[k]`, `k in d`, `d.get(k)`) for dicts built in insertion order with
unique keys. -/
def lookupA {α : Type} : List (String × α) → String → Option α
  | [], _ => none
  | (k2, v) :: rest, k => if k2 = k then some v else lookupA rest k

/-- Python truthiness of an optional string (`None` and `""` are falsy). -/
def optTruthy : Option String → Bool
  | none => false
  | some s => s ≠ ""

/-- The ASCII apostrophe character, used by `shlex.quote`. -/
def sq : Char := '\x27'

/-- The ASCII apostrophe as a one-character string. -/
def sqS : String := String.singleton sq

/-- Decimal digits of a natural number, most significant first; models the
digit sequence produced by Python `str(int)` (used by
`"param_{}".format(key_position)`). -/
def decDigits (n : Nat) : List Nat :=
  if n < 10 then [n]
  else decDigits (n / 10) ++ [n % 10]
termination_by n
decreasing_by exact Nat.div_lt_self (by omega) (by omega)

/-- Left-fold decoding of a decimal digit list, inverse to `decDigits`. -/
def undigits (ds : List Nat) : Nat :=
  ds.foldl (fun acc d => acc * 10 + d) 0

/-- A decimal digit rendered as its ASCII character. -/
def decChar (d : Nat) : Char := Char.ofNat (48 + d)

/-- Decimal rendering of a natural number; models Python `str(int)` for
nonnegative ints. -/
def natDec (n : Nat) : String := String.mk ((decDigits n).map decChar)

/-- Characters `shlex.quote` considers safe: ASCII alphanumerics and
underscore (ASCII `\w`) plus at-sign, percent, plus, equals, colon, comma,
dot, slash and hyphen. -/
def shlexSafe (c : Char) : Bool :=
  (c.isAlpha && c.toNat < 128) || c.isDigit || c = '_' || c = '@' || c = '%' ||
    c = '+' || c = '=' || c = ':' || c = ',' || c = '.' || c = '/' || c = '-'

/-- Python `shlex.quote`: return `s` unchanged when every character is safe,
`\x27\x27` for the empty string, and otherwise `s` wrapped in apostrophes
with each embedded apostrophe replaced by an escape sequence. -/
def shlexQuote (s : String) : String :=
  if s = "" then sqS ++ sqS
  else if s.data.all shlexSafe then s
  else sqS ++ (s.replace sqS (sqS ++ "\"" ++ sqS ++ "\"" ++ sqS)) ++ sqS

/-- Does the string start with a slash?  (The only use `posixpath.join`
makes of `b.startswith('/')`.) -/
def startsWithSlash (s : String) : Bool :=
  match s.data with
  | [] => false
  | c :: _ => c = '/'

/-- Does the string end with a slash? -/
def endsWithSlash (s : String) : Bool :=
  match s.data.getLast? with
  | none => false
  | some c => c = '/'

/-- Python `posixpath.join` for two components, as used by `os.path.join`
throughout the source. -/
def pjoin (a b : String) : String :=
  if startsWithSlash b then b
  else if a = "" || endsWithSlash a then a ++ b
  else a ++ "/" ++ b

/-- Index of the last occurrence of `c` in `cs`, if any. -/
def lastIndexOf (cs : List Char) (c : Char) : Option Nat :=
  ((cs.enum.filter (fun p => p.2 = c)).getLast?).map (·.1)

/-- Python `str.rfind` for a single character: last index, `-1` if absent. -/
def rfind (cs : List Char) (c : Char) : Int :=
  match lastIndexOf cs c with
  | none => -1
  | some i => (i : Int)

/-- Python `posixpath.splitext`: split off the extension beginning at the
last dot of the basename, unless every character of the basename before
that dot is itself a dot. -/
def splitext (p : String) : String × String :=
  let cs := p.data
  let sepIndex := rfind cs '/'
  let dotIndex := rfind cs '.'
  if sepIndex < dotIndex then
    let f := (sepIndex + 1).toNat
    let d := dotIndex.toNat
    if (List.range (d - f)).any (fun k => cs.getD (f + k) ' ' ≠ '.') then
      (String.mk (cs.take d), String.mk (cs.drop d))
    else (p, "")
  else (p, "")

/-- Python `posixpath.dirname`. -/
def dirname (p : String) : String :=
  match lastIndexOf p.data '/' with
  | none => ""
  | some i =>
    let head := p.data.take (i + 1)
    if head.all (fun c => c = '/') then String.mk head
    else String.mk (head.reverse.dropWhile (fun c => c = '/')).reverse

/-- Python `str.lower`, character by character (the descriptor filenames
involved are ASCII, where CPython's lowercasing agrees with
`Char.toLower`). -/
def pyLower (s : String) : String := String.mk (s.data.map Char.toLower)

/-- Python `list.index` (first index of `k`; the source only calls it on
lists that contain `k`). -/
def pyIndex : List String → String → Nat
  | [], _ => 0
  | x :: rest, k => if x = k then 0 else pyIndex rest k + 1

/-- Model of `str(value)` for an optional string value (`str(None) = "None"`). -/
def pyStrOpt : Option String → String
  | none => "None"
  | some s => s

/-- Boolean success test for `Except`. -/
def exceptIsOk {ε α : Type} : Except ε α → Bool
  | .ok _ => true
  | .error _ => false

/-! ## `mlflow/projects/_project_spec.py` -/

/-- Canonical descriptor filename (`MLPROJECT_FILE_NAME`). -/
def MLPROJECT_FILE_NAME : String := "mlproject"

/-- Default dependency-file name (`DEFAULT_CONDA_FILE_NAME`). -/
def DEFAULT_CONDA_FILE_NAME : String := "conda.yaml"

/-- Errors raised by the `_project_spec` module.  `ExecutionException`s are
split by raise site so theorems can tell them apart; `keyError`,
`formatValueError`, `noneTypeError` and `fileExistsError` model the
corresponding Python built-in exceptions. -/
inductive PErr
  | missingParameters (names : List String)
  | invalidUri (paramName value : String)
  | pathNotFound (value paramName : String)
  | fileExistsError (path : String)
  | noneTypeError (what : String)
  | keyError (name : String)
  | formatValueError (what : String)
  | formatInternal
  | unsupportedEntryPoint (requested : String) (declared : List String)
      (supportedExts : List String)
deriving DecidableEq, Repr

/-- Is this error the missing-parameters `ExecutionException`? -/
def isMissingErr : PErr → Bool
  | .missingParameters _ => true
  | _ => false

/-- Extract the missing-parameter name list when the computation failed
with the missing-parameters `ExecutionException`. -/
def missingParamsOf {α : Type} : Except PErr α → Option (List String)
  | .error (.missingParameters names) => some names
  | _ => none

/-- External collaborators used during parameter resolution
(`mlflow.utils.file_utils.get_local_path_or_none`, `os.path`,
`mlflow.data.is_uri`, `mlflow.tracking.artifact_utils`); they live outside
`src/`, so they are abstract pure functions here. -/
structure World where
  get_local_path_or_none : String → Option String
  path_exists : String → Bool
  abspath : String → String
  is_uri : String → Bool
  download_artifact_from_uri : String → String → String

/-- Model of `Parameter`: a typed entry-point parameter. -/
structure Parameter where
  name : String
  type : String
  default : Option String
deriving DecidableEq, Repr

/-- A parameter's YAML form: either a bare type string (`alpha: path`) or a
table with optional `type` (defaulting to `"string"`) and `default`. -/
inductive ParamYaml
  | typeName (t : String)
  | table (t : Option String) (d : Option String)
deriving DecidableEq, Repr

/-- Model of `Parameter.__init__`. -/
def Parameter.ofYaml (name : String) (y : ParamYaml) : Parameter :=
  match y with
  | .typeName t => { name := name, type := t, default := none }
  | .table t d => { name := name, type := t.getD "string", default := d }

/-- Model of `EntryPoint`: named command template plus declared parameters in
declaration order. -/
structure EntryPoint where
  name : String
  parameters : List (String × Parameter)
  command : String
deriving DecidableEq, Repr

/-- Model of `EntryPoint.__init__`: builds `Parameter` objects from their YAML
forms, keeping declaration order. -/
def EntryPoint.ofYaml (name : String) (parameters : List (String × ParamYaml))
    (command : String) : EntryPoint :=
  { name := name
    parameters := parameters.map (fun kv => (kv.1, Parameter.ofYaml kv.1 kv.2))
    command := command }

/-- Container environment section of the descriptor (`docker_env` /
`singularity_env`).  An absent-or-empty (hence falsy) section is modelled
as `none` at the `Option ContainerEnv` level. -/
structure ContainerEnv where
  image : Option String := none
  volumesIsStrList : Bool := true
  environmentIsList : Bool := true
  volumesPresent : Bool := false
  environmentPresent : Bool := false
deriving DecidableEq, Repr

/-- Model of `Project`. -/
structure Project where
  conda_env_path : Option String
  entry_points : List (String × EntryPoint)
  docker_env : Option ContainerEnv
  singularity_env : Option ContainerEnv
  name : Option String
deriving DecidableEq, Repr

/-- Python truthiness of a (possibly absent) container section: `None` and
`{}` are falsy; a non-empty dict is truthy. -/
def envTruthy : Option ContainerEnv → Bool := Option.isSome

/-- Model of `EntryPoint._validate_parameters`: collect, in declaration order, every
declared name that is neither user-supplied nor defaulted, and raise with
the whole list when it is non-empty. -/
def EntryPoint.validate_parameters (ep : EntryPoint)
    (user_parameters : List (String × String)) : Except PErr Unit :=
  let missing_params :=
    (ep.parameters.filter
      (fun kv => (lookupA user_parameters kv.1).isNone && kv.2.default.isNone)).map (·.1)
  if missing_params.isEmpty then .ok () else .error (.missingParameters missing_params)

/-- The message attached to the `missingParameters` error
(`"No value given for missing parameters: ..."`). -/
def missing_params_message (names : List String) : String :=
  "No value given for missing parameters: " ++
    String.intercalate ", " (names.map (fun n => sqS ++ n ++ sqS))

/-- Model of `Parameter._compute_uri_value`.  For a `None` value the external
predicate `data.is_uri` is false, so the same exception is raised with the
value printed as `None`. -/
def Parameter.compute_uri_value (w : World) (p : Parameter)
    (user_param_value : Option String) : Except PErr String :=
  match user_param_value with
  | some v => if w.is_uri v then .ok v else .error (.invalidUri p.name v)
  | none => .error (.invalidUri p.name "None")

/-- Model of `Parameter._compute_path_value`.  Returns the resolved value together
with the list of directories created by `os.mkdir` (the claims quantify
over this trace).  `os.mkdir` on an existing path raises
`FileExistsError`. -/
def Parameter.compute_path_value (w : World) (p : Parameter)
    (user_param_value : Option String) (storage_dir : String)
    (key_position : Nat) : Except PErr (String × List String) :=
  match user_param_value with
  | none => .error (.noneTypeError "get_local_path_or_none(None)")
  | some v =>
    match w.get_local_path_or_none v with
    | some local_path =>
      if w.path_exists local_path then .ok (w.abspath local_path, [])
      else .error (.pathNotFound v p.name)
    | none =>
      let target_sub_dir := "param_" ++ natDec key_position
      let download_dir := pjoin storage_dir target_sub_dir
      if w.path_exists download_dir then .error (.fileExistsError download_dir)
      else .ok (w.download_artifact_from_uri v download_dir, [download_dir])

/-- Model of `Parameter.compute_value`: dispatch on `storage_dir` truthiness and the
declared type.  The `string` (default) branch returns the raw value
unchanged, including a `None` passthrough. -/
def Parameter.compute_value (w : World) (p : Parameter)
    (param_value : Option String) (storage_dir : Option String)
    (key_position : Nat) : Except PErr (Option String × List String) :=
  if optTruthy storage_dir && p.type == "path" then
    match Parameter.compute_path_value w p param_value (storage_dir.getD "") key_position with
    | .ok r => .ok (some r.1, r.2)
    | .error e => .error e
  else if p.type == "uri" then
    match Parameter.compute_uri_value w p param_value with
    | .ok v => .ok (some v, [])
    | .error e => .error e
  else
    .ok (param_value, [])

/-- The loop body of `EntryPoint.compute_parameters` over the declared
parameters: per key the position is `parameter_keys.index(key)`, the raw
value is the user value or the declared default, and resolution goes
through `Parameter.compute_value`.  Returns the resolved pairs in
declaration order together with the concatenated directory-creation
trace. -/
def compute_final_params (w : World) (parameter_keys : List String)
    (user_parameters : List (String × String)) (storage_dir : Option String) :
    List (String × Parameter) → Except PErr (List (String × Option String) × List String)
  | [] => .ok ([], [])
  | (key, param_obj) :: rest =>
    let key_position := pyIndex parameter_keys key
    let value : Option String :=
      match lookupA user_parameters key with
      | some v => some v
      | none => param_obj.default
    match param_obj.compute_value w value storage_dir key_position with
    | .error e => .error e
    | .ok (v, created) =>
      match compute_final_params w parameter_keys user_parameters storage_dir rest with
      | .error e => .error e
      | .ok (restParams, restCreated) =>
        .ok ((key, v) :: restParams, created ++ restCreated)

/-- Model of `EntryPoint._sanitize_param_dict` on the resolved (declared) mapping:
`{str(key): quote(str(value))}`. -/
def sanitize_final (d : List (String × Option String)) : List (String × String) :=
  d.map (fun kv => (kv.1, shlexQuote (pyStrOpt kv.2)))

/-- Model of `EntryPoint._sanitize_param_dict` on the extra (user-only) mapping,
whose values are plain strings. -/
def sanitize_extra (d : List (String × String)) : List (String × String) :=
  d.map (fun kv => (kv.1, shlexQuote kv.2))

/-- Model of `EntryPoint.compute_parameters`: `None` user parameters become `{}`,
validation runs first, the declared parameters are resolved in declaration
order, user keys not declared become extras, and both mappings are
sanitized.  The third component is the directory-creation trace. -/
def EntryPoint.compute_parameters (w : World) (ep : EntryPoint)
    (user_parameters : Option (List (String × String)))
    (storage_dir : Option String) :
    Except PErr (List (String × String) × List (String × String) × List String) :=
  let userParams :=
    match user_parameters with
    | none => []
    | some u => u
  match ep.validate_parameters userParams with
  | .error e => .error e
  | .ok _ =>
    match compute_final_params w (ep.parameters.map (·.1)) userParams storage_dir
        ep.parameters with
    | .error e => .error e
    | .ok (final_params, created) =>
      let extra_params := userParams.filter (fun kv => (lookupA final_params kv.1).isNone)
      .ok (sanitize_final final_params, sanitize_extra extra_params, created)

/-- One step of `str.format` processing: fuel-indexed so the recursion is
structural; `template.length + 1` fuel always suffices because every step
consumes at least one character. -/
def formatAux (ps : List (String × String)) : Nat → List Char → Except PErr (List Char)
  | 0, _ => .error .formatInternal
  | _ + 1, [] => .ok []
  | fuel + 1, c :: cs =>
    if c = '\x7b' then
      match cs with
      | [] => .error (.formatValueError "Single brace encountered in format string")
      | c2 :: cs2 =>
        if c2 = '\x7b' then (fun r => '\x7b' :: r) <$> formatAux ps fuel cs2
        else
          let nm := (c2 :: cs2).takeWhile (fun ch => ch ≠ '\x7d')
          match (c2 :: cs2).drop nm.length with
          | cl :: cs3 =>
            if cl = '\x7d' then
              match lookupA ps (String.mk nm) with
              | some v => (fun r => v.data ++ r) <$> formatAux ps fuel cs3
              | none => .error (.keyError (String.mk nm))
            else .error (.formatValueError "expected closing brace")
          | [] => .error (.formatValueError "Single brace encountered in format string")
    else if c = '\x7d' then
      match cs with
      | c2 :: cs2 =>
        if c2 = '\x7d' then (fun r => '\x7d' :: r) <$> formatAux ps fuel cs2
        else .error (.formatValueError "Single brace encountered in format string")
      | [] => .error (.formatValueError "Single brace encountered in format string")
    else (fun r => c :: r) <$> formatAux ps fuel cs

/-- Python `template.format(**ps)` for the placeholder grammar the command
templates use (named fields, doubled-brace escapes; no conversions or
format specs). -/
def pyFormat (template : String) (ps : List (String × String)) : Except PErr String :=
  String.mk <$> formatAux ps (template.data.length + 1) template.data

/-- Model of `EntryPoint.compute_command`: render the template with the sanitized
declared values, then append one `--key value` chunk per extra parameter
and join everything with single spaces. -/
def EntryPoint.compute_command (w : World) (ep : EntryPoint)
    (user_parameters : Option (List (String × String)))
    (storage_dir : Option String) : Except PErr String :=
  match ep.compute_parameters w user_parameters storage_dir with
  | .error e => .error e
  | .ok (params, extra_params, _) =>
    match pyFormat ep.command params with
    | .error e => .error e
    | .ok command_with_params =>
      .ok (String.intercalate " "
        (command_with_params :: extra_params.map (fun kv => "--" ++ kv.1 ++ " " ++ kv.2)))

/-- Model of `Project.get_entry_point`.  `shellEnv` models
`os.environ.get("SHELL", "bash")` (`none` when `SHELL` is unset).  The
Python-2 `encode` fallback is dead code under Python 3 and is not
modelled. -/
def Project.get_entry_point (shellEnv : Option String) (proj : Project)
    (entry_point : String) : Except PErr EntryPoint :=
  match lookupA proj.entry_points entry_point with
  | some ep => .ok ep
  | none =>
    let file_extension := (splitext entry_point).2
    let ext_to_cmd : List (String × String) :=
      [(".py", "python"), (".sh", shellEnv.getD "bash")]
    match lookupA ext_to_cmd file_extension with
    | some c =>
      .ok { name := entry_point, parameters := []
            command := c ++ " " ++ shlexQuote entry_point }
    | none =>
      if file_extension = ".R" then
        .ok { name := entry_point, parameters := []
              command := "Rscript -e \"mlflow::mlflow_source(" ++ sqS ++
                shlexQuote entry_point ++ sqS ++ ")\" --args" }
      else
        .error (.unsupportedEntryPoint entry_point (proj.entry_points.map (·.1))
          (ext_to_cmd.map (·.1)))

/-! ### Project loading (`_find_mlproject` / `load_project`) -/

/-- The filesystem view `load_project` consults. -/
structure Fs where
  isDir : String → Bool
  isFile : String → Bool
  pexists : String → Bool
  listdir : String → List String

/-- Result of `_find_mlproject`: a `(path, directory)` pair, the bare
`return None` taken when a directory holds no descriptor, or an
`ExecutionException`. -/
inductive FindResult
  | found (mlprojectPath : String) (directory : String)
  | bareNone
  | err (msg : String)
deriving DecidableEq, Repr

/-- Model of `_find_mlproject`: inside a directory the first filename whose
lowercasing equals the canonical name wins; a file path is used directly
with its parent as working directory; otherwise an `ExecutionException`
is raised.  A descriptor-less directory hits the bare `return None`. -/
def find_mlproject (fs : Fs) (path : String) : FindResult :=
  if fs.isDir path then
    match (fs.listdir path).find?
        (fun filename => pyLower filename = MLPROJECT_FILE_NAME) with
    | some filename => .found (pjoin path filename) path
    | none => .bareNone
  else if fs.pexists path && fs.isFile path then
    .found path (dirname path)
  else
    .err ("The passed argument " ++ sqS ++ path ++ sqS ++ " to obtain the MLproject " ++
      "file from is either not a directory or does not exist.")

/-- Errors of `load_project`: `ExecutionException`s plus the `TypeError`
Python raises when `load_project` tuple-unpacks the bare `None` from
`_find_mlproject`. -/
inductive LoadErr
  | executionException (msg : String)
  | typeError (msg : String)
deriving DecidableEq, Repr

/-- Parsed YAML form of an entry point (`entry_points` values). -/
structure EntryPointYaml where
  parameters : List (String × ParamYaml)
  command : String
deriving DecidableEq, Repr

/-- The YAML object obtained from the descriptor file, with exactly the
keys `load_project` reads.  Falsy (absent or empty) container sections are
`none`. -/
structure YamlDoc where
  name : Option String := none
  docker_env : Option ContainerEnv := none
  singularity_env : Option ContainerEnv := none
  conda_env : Option String := none
  entry_points : List (String × EntryPointYaml) := []

/-- The container-section validation loop of `load_project` for one
section. -/
def validate_container_env (env_type : String) (container_env : Option ContainerEnv) :
    Except LoadErr Unit :=
  match container_env with
  | none => .ok ()
  | some ce =>
    if ¬ optTruthy ce.image then
      .error (.executionException
        ("Project configuration (MLproject file) was invalid: " ++ env_type ++
          " environment specified but no image attribute found."))
    else if ce.volumesPresent && ¬ ce.volumesIsStrList then
      .error (.executionException
        ("Project configuration (MLproject file) was invalid: " ++ env_type ++
          " volumes must be a list of strings"))
    else if ce.environmentPresent && ¬ ce.environmentIsList then
      .error (.executionException
        "Project configuration (MLproject file) was invalid: environment must be a list")
    else .ok ()

/-- Model of `load_project`.  `yamlLoad` abstracts the external
`yaml.load`-with-includes collaborator.  On the bare-`None` find result the
tuple unpacking `mlproject_path, directory = _find_mlproject(project_path)`
raises `TypeError` before the empty-descriptor handling below it can
run. -/
def load_project (fs : Fs) (yamlLoad : String → YamlDoc) (project_path : String) :
    Except LoadErr Project :=
  match find_mlproject fs project_path with
  | .err msg => .error (.executionException msg)
  | .bareNone => .error (.typeError "cannot unpack non-iterable NoneType object")
  | .found mlproject_path directory => do
    let yaml_obj := yamlLoad mlproject_path
    let project_name := yaml_obj.name
    let docker_env := yaml_obj.docker_env
    let singularity_env := yaml_obj.singularity_env
    validate_container_env "Docker" docker_env
    validate_container_env "Singularity" singularity_env
    let conda_path := yaml_obj.conda_env
    if optTruthy conda_path && envTruthy docker_env ||
        optTruthy conda_path && envTruthy singularity_env ||
        envTruthy docker_env && envTruthy singularity_env then
      throw (.executionException
        "Project can only contain a single container or conda environment.")
    else
      let entry_points := yaml_obj.entry_points.map
        (fun kv => (kv.1, EntryPoint.ofYaml kv.1 kv.2.parameters kv.2.command))
      if optTruthy conda_path then
        let conda_env_path := pjoin directory (conda_path.getD "")
        if ¬ fs.pexists conda_env_path then
          throw (.executionException
            ("Project specified conda environment file " ++ conda_env_path ++
              ", but no such file was found."))
        else
          return { conda_env_path := some conda_env_path, entry_points := entry_points
                   docker_env := docker_env, singularity_env := singularity_env
                   name := project_name }
      else
        let default_conda_path := pjoin directory DEFAULT_CONDA_FILE_NAME
        if fs.pexists default_conda_path then
          return { conda_env_path := some default_conda_path, entry_points := entry_points
                   docker_env := docker_env, singularity_env := singularity_env
                   name := project_name }
        else
          return { conda_env_path := none, entry_points := entry_points
                   docker_env := docker_env, singularity_env := singularity_env
                   name := project_name }

/-! ## `mlflow/projects/submitted_run.py` -/

/-- The state `LocalSubmittedRun.cancel` observes about its child process:
the `poll()` result (`none` while running), the child's pid, the child's
process-group id as `os.getpgid` would report it, and whether the child
disappears between the liveness check and the signal (the `OSError`
race). -/
structure ProcSt where
  pollResult : Option Int
  pid : Nat
  pgid : Nat
  signalRace : Bool
deriving DecidableEq, Repr

/-- Model of `signal.SIGKILL`. -/
def SIGKILL : Nat := 9

/-- A signal issued by `cancel`: `os.killpg(pid, SIGKILL)` on the whole
group, or `Popen.kill()` on the direct child only. -/
inductive SignalAction
  | killpg (pgid sig : Nat)
  | killChild (pid : Nat)
deriving DecidableEq, Repr

/-- Observable outcome of one `cancel()` call. -/
structure CancelResult where
  signaled : Option SignalAction
  loggedRace : Bool
  waited : Bool
  raised : Bool
deriving DecidableEq, Repr

/-- Model of `LocalSubmittedRun.cancel`: no-op when the child already exited;
otherwise signal the whole group when the child leads its own group and
just the child otherwise, swallow (and log) the no-such-process `OSError`,
and in every live-child case finish with a blocking `wait()`. -/
def LocalSubmittedRun.cancel (p : ProcSt) : CancelResult :=
  if p.pollResult.isSome then
    { signaled := none, loggedRace := false, waited := false, raised := false }
  else if p.signalRace then
    { signaled := none, loggedRace := true, waited := true, raised := false }
  else if p.pid = p.pgid then
    { signaled := some (.killpg p.pid SIGKILL), loggedRace := false
      waited := true, raised := false }
  else
    { signaled := some (.killChild p.pid), loggedRace := false
      waited := true, raised := false }

/-! ## `mlflow/projects/backend/local.py` -/

/-- The three run environments of `RUN_ENVIRONMENTS`. -/
inductive EnvKind
  | conda
  | docker
  | singularity
deriving DecidableEq, Repr

/-- The environment-selection step of `LocalBackend.run` (the sequence of
three independent `if` statements assigning `env_name` and
`run_environment`): returns the selected environment and the `env_name`
tag value.  A later truthy condition overwrites an earlier assignment. -/
def selectRunEnvironment (use_conda : Bool) (project : Project) :
    Option EnvKind × String :=
  let s : Option EnvKind × String := (none, "")
  let s := if use_conda then (some EnvKind.conda, "conda") else s
  let s := if envTruthy project.docker_env then (some EnvKind.docker, "docker") else s
  let s := if envTruthy project.singularity_env then (some EnvKind.singularity, "singularity") else s
  s

/-- A spawned OS process as `subprocess.Popen` returns it. -/
structure Proc where
  pid : Nat
deriving DecidableEq, Repr

/-- Python runtime values passed positionally to `LocalSubmittedRun(...)`. -/
inductive PyVal
  | str (s : String)
  | proc (p : Proc)
deriving DecidableEq, Repr

/-- Python runtime errors raised inside `_run_entry_point`. -/
inductive PyErr
  | typeError (msg : String)
  | attributeError (msg : String)
deriving DecidableEq, Repr

/-- Model of `LocalSubmittedRun`'s state: its `__init__(self, command_proc)` stores
only the process argument (it has no `run_id` member). -/
structure LocalSubmittedRunObj where
  command_proc : PyVal
deriving DecidableEq, Repr

/-- Python positional-call semantics for `LocalSubmittedRun(args...)`:
`__init__(self, command_proc)` accepts exactly one argument besides
`self`; any other arity raises `TypeError`. -/
def LocalSubmittedRun.construct (args : List PyVal) : Except PyErr LocalSubmittedRunObj :=
  match args with
  | [cp] => .ok { command_proc := cp }
  | _ => .error (.typeError ("__init__() takes 2 positional arguments but " ++
      natDec (args.length + 1) ++ " were given"))

/-- Modelled from the spec: the run-environment variable names
(`tracking._RUN_ID_ENV_VAR` etc., defined in `mlflow/tracking`, outside
`src/`): "the tracking-server URI and run identifier as environment
variables" (§4.4), plus the experiment id (§6). -/
def MLFLOW_RUN_ID_ENV_VAR : String := "MLFLOW_RUN_ID"

/-- Modelled from the spec: see `MLFLOW_RUN_ID_ENV_VAR`. -/
def MLFLOW_TRACKING_URI_ENV_VAR : String := "MLFLOW_TRACKING_URI"

/-- Modelled from the spec: see `MLFLOW_RUN_ID_ENV_VAR`. -/
def MLFLOW_EXPERIMENT_ID_ENV_VAR : String := "MLFLOW_EXPERIMENT_ID"

/-- The state a `RunEnvironment` instance carries
(`mlflow/projects/run_environment.py`):  working directory, run id and
experiment id from the active tracking run. -/
structure RunEnvSt where
  work_dir : String
  run_id : String
  experiment_id : String
deriving DecidableEq, Repr

/-- Ambient OS/tracking state `_run_entry_point` reads: `os.environ`, the
tracking URI, the Databricks variable map (external collaborator) and the
pid the OS assigns to the spawned child. -/
structure OsWorld where
  environ : List (String × String)
  trackingUri : String
  databricksVars : List (String × String)
  spawnPid : Nat

/-- Model of `RunEnvironment.get_run_env_vars`. -/
def get_run_env_vars (w : OsWorld) (r : RunEnvSt) : List (String × String) :=
  [(MLFLOW_RUN_ID_ENV_VAR, r.run_id),
   (MLFLOW_TRACKING_URI_ENV_VAR, w.trackingUri),
   (MLFLOW_EXPERIMENT_ID_ENV_VAR, r.experiment_id)]

/-- Python `dict` assignment `d[k] = v` on an insertion-ordered
association list with unique keys. -/
def dictInsert (d : List (String × String)) (k v : String) : List (String × String) :=
  if (lookupA d k).isSome then d.map (fun kv => if kv.1 = k then (k, v) else kv)
  else d ++ [(k, v)]

/-- Python `dict.update`. -/
def dictUpdate (d u : List (String × String)) : List (String × String) :=
  u.foldl (fun acc kv => dictInsert acc kv.1 kv.2) d

/-- A `subprocess.Popen` call: argument vector, working directory and
environment (`close_fds=True` has no observable effect in this model). -/
structure SpawnReq where
  argv : List String
  cwd : String
  env : List (String × String)
deriving DecidableEq, Repr

/-- What one `_run_entry_point` call does: whether/what it spawned, and
either the constructed run handle or the exception that escaped. -/
structure RunEpResult where
  spawned : Option SpawnReq
  result : Except PyErr LocalSubmittedRunObj
deriving Repr

/-- Model of `_run_entry_point` (POSIX branch, `os.name != "nt"`): merge
`os.environ` with the run-environment variables and the Databricks
variables, spawn `bash -c command` in the environment's working
directory, and construct `LocalSubmittedRun(run_environment.run_id,
process)`.  When `run_environment` is `None` the very first attribute
access raises `AttributeError`. -/
def run_entry_point (w : OsWorld) (command : String)
    (run_environment : Option RunEnvSt) : RunEpResult :=
  match run_environment with
  | none =>
    { spawned := none
      result := .error (.attributeError
        "NoneType object has no attribute get_run_env_vars") }
  | some r =>
    let env := dictUpdate (dictUpdate w.environ (get_run_env_vars w r)) w.databricksVars
    let process : Proc := { pid := w.spawnPid }
    { spawned := some { argv := ["bash", "-c", command], cwd := r.work_dir, env := env }
      result := LocalSubmittedRun.construct [PyVal.str r.run_id, PyVal.proc process] }

/-! ## `mlflow/projects/docker.py` -/

/-- Model of `_GENERATED_DOCKERFILE_NAME`. -/
def GENERATED_DOCKERFILE_NAME : String := "Dockerfile.mlflow-autogenerated"

/-- Model of `_PROJECT_TAR_ARCHIVE_NAME`. -/
def PROJECT_TAR_ARCHIVE_NAME : String := "mlflow-project-docker-build-context"

/-- Modelled from the spec: the fixed in-container working directory
(`MLFLOW_CONTAINER_WORKDIR_PATH`, defined in `mlflow/projects/utils.py`,
outside `src/`); only its fixedness matters here. -/
def MLFLOW_CONTAINER_WORKDIR_PATH : String := "/mlflow/projects/code"

/-- Model of `DockerRunEnvironment._get_docker_image_uri`: project name (or the
`docker-project` fallback) plus `:<first 7 chars of the git commit>` when
a commit is resolvable. -/
def get_docker_image_uri (projectName : Option String) (gitCommit : Option String) : String :=
  let repository_uri := if optTruthy projectName then projectName.getD "" else "docker-project"
  let version_string :=
    if optTruthy gitCommit then ":" ++ String.mk ((gitCommit.getD "").data.take 7) else ""
  repository_uri ++ version_string

/-- Ambient state of one `prepare_environment` invocation: the directories
the `tempfile` module yields and the success/failure of each external
effect. -/
structure DockerWorld where
  workDir : String
  tmpRoot : String
  stagingName : String
  tarName : String
  imageId : String
  copytreeOk : Bool
  makeTarOk : Bool
  buildOk : Bool
  removeTarOk : Bool
deriving DecidableEq, Repr

/-- Effects performed by `prepare_environment` /
`_create_docker_build_ctx`, in program order.  `removeTar` is recorded
only when `os.remove` succeeds; a failed removal records
`logRemoveFailed` instead. -/
inductive DockerEvent
  | makeDirs (p : String)
  | mkdtemp (parent made : String)
  | copytree (src dst : String)
  | writeDockerfile (p : String)
  | mkstemp (parent made : String)
  | makeTarfile (output srcDir : String)
  | rmtreeStaging (p : String)
  | imageBuild (tag : String) (ok : Bool)
  | removeTar (p : String)
  | logRemoveFailed (p : String)
  | setTag (key value : String)
deriving DecidableEq, Repr

/-- Exceptions escaping `prepare_environment`. -/
inductive DockerErr
  | copytreeError
  | makeTarError
  | imageBuildError
deriving DecidableEq, Repr

/-- Model of `DockerRunEnvironment._create_docker_build_ctx`: stage the working
tree and the generated Dockerfile in a fresh temporary directory, tar the
staging tree into a fresh temporary file, and remove the staging
directory in a `finally` block (so also when copying or tarring fails).
The tarfile path is returned and is not removed here. -/
def create_docker_build_ctx (w : DockerWorld) : List DockerEvent × Except DockerErr String :=
  let dst_path := pjoin w.stagingName "mlflow-project-contents"
  let pre := [DockerEvent.makeDirs w.tmpRoot, DockerEvent.mkdtemp w.tmpRoot w.stagingName]
  if w.copytreeOk then
    let mid := pre ++
      [DockerEvent.copytree w.workDir dst_path,
       DockerEvent.writeDockerfile (pjoin dst_path GENERATED_DOCKERFILE_NAME),
       DockerEvent.mkstemp w.tmpRoot w.tarName]
    if w.makeTarOk then
      (mid ++ [DockerEvent.makeTarfile w.tarName dst_path,
               DockerEvent.rmtreeStaging w.stagingName], .ok w.tarName)
    else
      (mid ++ [DockerEvent.rmtreeStaging w.stagingName], .error .makeTarError)
  else
    (pre ++ [DockerEvent.rmtreeStaging w.stagingName], .error .copytreeError)

/-- Model of `MLFLOW_DOCKER_IMAGE_URI` run-tag key (from `mlflow.utils.mlflow_tags`,
outside `src/`; the exact string is irrelevant to the claims). -/
def MLFLOW_DOCKER_IMAGE_URI_TAG : String := "mlflow.docker.image.uri"

/-- Model of `MLFLOW_DOCKER_IMAGE_ID` run-tag key. -/
def MLFLOW_DOCKER_IMAGE_ID_TAG : String := "mlflow.docker.image.id"

/-- Model of `DockerRunEnvironment.prepare_environment`: build the context, run the
image build from the context tarfile, and only after a successful build
try to `os.remove` the tarfile, logging (not raising) a removal failure;
finally record the image tags.  A failed build propagates before the
`os.remove` line is reached. -/
def prepare_environment (w : DockerWorld) (project : Project)
    (gitCommit : Option String) : List DockerEvent × Except DockerErr Unit :=
  let image_uri := get_docker_image_uri project.name gitCommit
  let (ev1, ctx) := create_docker_build_ctx w
  match ctx with
  | .error e => (ev1, .error e)
  | .ok build_ctx_path =>
    if w.buildOk then
      let ev2 := ev1 ++ [DockerEvent.imageBuild image_uri true]
      let ev3 :=
        if w.removeTarOk then ev2 ++ [DockerEvent.removeTar build_ctx_path]
        else ev2 ++ [DockerEvent.logRemoveFailed build_ctx_path]
      (ev3 ++ [DockerEvent.setTag MLFLOW_DOCKER_IMAGE_URI_TAG image_uri,
               DockerEvent.setTag MLFLOW_DOCKER_IMAGE_ID_TAG w.imageId], .ok ())
    else
      (ev1 ++ [DockerEvent.imageBuild image_uri false], .error .imageBuildError)

/-! ## Concrete sample inputs used by witnesses and counterexamples -/

/-- A resolver world where nothing is a local path and no path exists
(every `path` value is a remote reference). -/
def wRemote : World :=
  { get_local_path_or_none := fun _ => none
    path_exists := fun _ => false
    abspath := id
    is_uri := fun _ => true
    download_artifact_from_uri := fun _ d => d }

/-- Entry point `main: echo {greeting}` with `greeting` defaulting to
`"hi"`. -/
def epGreeting : EntryPoint :=
  { name := "main"
    parameters := [("greeting",
      { name := "greeting", type := "string", default := some "hi" })]
    command := "echo {greeting}" }

/-- Entry point with a defaultless parameter `alpha` and a defaulted
parameter `beta`. -/
def epAlphaBeta : EntryPoint :=
  { name := "main"
    parameters :=
      [("alpha", { name := "alpha", type := "string", default := none }),
       ("beta", { name := "beta", type := "string", default := some "b" })]
    command := "run {alpha} {beta}" }

/-- Entry point with two `path` parameters given the same remote
reference. -/
def epTwoPaths : EntryPoint :=
  { name := "main"
    parameters :=
      [("data1", { name := "data1", type := "path", default := some "s3://bucket/x" }),
       ("data2", { name := "data2", type := "path", default := some "s3://bucket/x" })]
    command := "train {data1} {data2}" }

/-- A project declaring no entry points and no environment. -/
def projEmpty : Project :=
  { conda_env_path := none, entry_points := [], docker_env := none
    singularity_env := none, name := none }

/-- A project that (despite upstream validation) has both `docker_env` and
`singularity_env` set. -/
def projBoth : Project :=
  { conda_env_path := none, entry_points := []
    docker_env := some { image := some "python:3.8" }
    singularity_env := some { image := some "library://alpine" }
    name := some "proj" }

/-- A project with only a docker environment. -/
def projDocker : Project :=
  { conda_env_path := none, entry_points := []
    docker_env := some { image := some "python:3.8" }
    singularity_env := none, name := some "proj" }

/-- A filesystem in which `/proj` is a directory containing files but no
descriptor whose lowercased name is `mlproject`. -/
def fsNoDescriptor : Fs :=
  { isDir := fun p => p = "/proj"
    isFile := fun _ => false
    pexists := fun p => p = "/proj"
    listdir := fun p => if p = "/proj" then ["README.md", "train.py"] else [] }

/-- A filesystem in which `/proj` contains descriptors under two casings. -/
def fsTwoDescriptors : Fs :=
  { isDir := fun p => p = "/proj"
    isFile := fun _ => false
    pexists := fun p => p = "/proj"
    listdir := fun p => if p = "/proj" then ["MLProject", "mlproject"] else [] }

/-- A YAML loader returning the empty document. -/
def ylEmpty : String → YamlDoc := fun _ => {}

/-- A concrete ambient OS state. -/
def osW : OsWorld :=
  { environ := [("PATH", "/usr/bin")]
    trackingUri := "http://localhost:5000"
    databricksVars := []
    spawnPid := 42 }

/-- A concrete run-environment state. -/
def renv1 : RunEnvSt := { work_dir := "/proj", run_id := "run123", experiment_id := "0" }

/-- A docker world whose image build fails and whose other effects
succeed. -/
def dwFailBuild : DockerWorld :=
  { workDir := "/proj", tmpRoot := "/home/u/.tmp", stagingName := "/home/u/.tmp/stage1"
    tarName := "/home/u/.tmp/tar1", imageId := "sha256:abc"
    copytreeOk := true, makeTarOk := true, buildOk := false, removeTarOk := true }

/-- An already-exited child process. -/
def procExited : ProcSt := { pollResult := some 0, pid := 100, pgid := 100, signalRace := false }

/-- A live child process leading its own process group. -/
def procLeader : ProcSt := { pollResult := none, pid := 100, pgid := 100, signalRace := false }

/-- A live child process in its parent's process group. -/
def procNonLeader : ProcSt := { pollResult := none, pid := 100, pgid := 50, signalRace := false }

/-- A live child process that disappears between the liveness check and
the signal. -/
def procRace : ProcSt := { pollResult := none, pid := 100, pgid := 100, signalRace := true }

/-- A docker world where only the final tarfile removal fails. -/
def dwRemoveFail : DockerWorld :=
  { workDir := "/proj", tmpRoot := "/home/u/.tmp", stagingName := "/home/u/.tmp/stage1"
    tarName := "/home/u/.tmp/tar1", imageId := "sha256:abc"
    copytreeOk := true, makeTarOk := true, buildOk := true, removeTarOk := false }

/-! ## Helper lemmas -/

theorem undigits_decDigits (n : Nat) : undigits (decDigits n) = n := by
  induction n using Nat.strong_induction_on with
  | _ n ih =>
    rw [decDigits]
    by_cases h : n < 10
    · simp [h, undigits]
    · rw [if_neg h]
      have ihn := ih (n / 10) (Nat.div_lt_self (by omega) (by omega))
      unfold undigits at ihn ⊢
      rw [List.foldl_append]
      simp only [List.foldl_cons, List.foldl_nil, ihn]
      omega

theorem decDigits_lt_ten (n : Nat) : ∀ d ∈ decDigits n, d < 10 := by
  induction n using Nat.strong_induction_on with
  | _ n ih =>
    rw [decDigits]
    by_cases h : n < 10
    · simp [h]
    · rw [if_neg h]
      intro d hd
      rcases List.mem_append.mp hd with h1 | h2
      · exact ih (n / 10) (Nat.div_lt_self (by omega) (by omega)) d h1
      · simp only [List.mem_singleton] at h2
        omega

theorem decChar_inj_lt : ∀ d < 10, ∀ e < 10, decChar d = decChar e → d = e := by decide

theorem map_decChar_inj : ∀ (xs ys : List Nat), (∀ d ∈ xs, d < 10) → (∀ d ∈ ys, d < 10) →
    xs.map decChar = ys.map decChar → xs = ys := by
  intro xs
  induction xs with
  | nil =>
    intro ys _ _ h
    cases ys with
    | nil => rfl
    | cons y ys => simp at h
  | cons x xs ih =>
    intro ys hx hy h
    cases ys with
    | nil => simp at h
    | cons y ys =>
      simp only [List.map_cons, List.cons.injEq] at h
      have hxy : x = y :=
        decChar_inj_lt x (hx x (by simp)) y (hy y (by simp)) h.1
      have hrest := ih ys (fun d hd => hx d (by simp [hd])) (fun d hd => hy d (by simp [hd])) h.2
      rw [hxy, hrest]

theorem natDec_inj {m n : Nat} (h : natDec m = natDec n) : m = n := by
  unfold natDec at h
  have hmap : (decDigits m).map decChar = (decDigits n).map decChar := congrArg String.data h
  have hdig := map_decChar_inj _ _ (decDigits_lt_ten m) (decDigits_lt_ten n) hmap
  have h1 := undigits_decDigits m
  have h2 := undigits_decDigits n
  rw [hdig] at h1
  exact h1.symm.trans h2

theorem string_append_left_cancel {a b c : String} (h : a ++ b = a ++ c) : b = c := by
  apply String.ext
  have hd := congrArg String.data h
  rw [String.data_append, String.data_append] at hd
  exact List.append_cancel_left hd

theorem startsWithSlash_param (s : String) : startsWithSlash ("param_" ++ s) = false := by
  unfold startsWithSlash
  rw [String.data_append]
  rfl

theorem pjoin_param_ne {d : String} {i j : Nat} (hij : i ≠ j) :
    pjoin d ("param_" ++ natDec i) ≠ pjoin d ("param_" ++ natDec j) := by
  intro h
  apply hij
  apply natDec_inj
  apply string_append_left_cancel (a := "param_")
  unfold pjoin at h
  rw [startsWithSlash_param, startsWithSlash_param] at h
  simp only [Bool.false_eq_true, if_false] at h
  by_cases hd : (d = "" || endsWithSlash d) = true
  · rw [if_pos hd, if_pos hd] at h
    exact string_append_left_cancel h
  · rw [if_neg hd, if_neg hd] at h
    exact string_append_left_cancel (a := d ++ "/") h

theorem pyIndex_get : ∀ {keys : List String}, keys.Nodup → ∀ {i : Nat} {k : String},
    keys.get? i = some k → pyIndex keys k = i := by
  intro keys
  induction keys with
  | nil => intro _ i k hget; simp at hget
  | cons x rest ih =>
    intro hnd i k hget
    cases i with
    | zero =>
      simp only [List.get?] at hget
      injection hget with hx
      subst hx
      simp [pyIndex]
    | succ n =>
      simp only [List.get?] at hget
      have hk : k ∈ rest := List.get?_mem hget
      have hx : x ∉ rest := (List.nodup_cons.mp hnd).1
      have hxk : ¬ (x = k) := fun hh => hx (hh ▸ hk)
      simp only [pyIndex, if_neg hxk, Nat.add_right_cancel_iff]
      exact ih (List.nodup_cons.mp hnd).2 hget

theorem compute_path_value_err {w : World} {p : Parameter} {v : Option String}
    {sd : String} {kp : Nat} {e : PErr}
    (h : Parameter.compute_path_value w p v sd kp = .error e) : isMissingErr e = false := by
  unfold Parameter.compute_path_value at h
  split at h
  · injection h with h2
    subst h2
    rfl
  · split at h
    · split at h
      · exact absurd h (by simp)
      · injection h with h2
        subst h2
        rfl
    · simp only [] at h
      split at h
      · injection h with h2
        subst h2
        rfl
      · exact absurd h (by simp)

theorem compute_uri_value_err {w : World} {p : Parameter} {v : Option String} {e : PErr}
    (h : Parameter.compute_uri_value w p v = .error e) : isMissingErr e = false := by
  unfold Parameter.compute_uri_value at h
  split at h
  · split at h
    · exact absurd h (by simp)
    · injection h with h2
      subst h2
      rfl
  · injection h with h2
    subst h2
    rfl

theorem compute_value_err {w : World} {p : Parameter} {v : Option String}
    {sd : Option String} {kp : Nat} {e : PErr}
    (h : p.compute_value w v sd kp = .error e) : isMissingErr e = false := by
  unfold Parameter.compute_value at h
  by_cases h1 : (optTruthy sd && p.type == "path") = true
  · rw [if_pos h1] at h
    cases hr : Parameter.compute_path_value w p v (sd.getD "") kp with
    | ok r => rw [hr] at h; exact absurd h (by simp)
    | error e2 =>
      rw [hr] at h
      injection h with h2
      subst h2
      exact compute_path_value_err hr
  · rw [if_neg h1] at h
    by_cases h2 : (p.type == "uri") = true
    · rw [if_pos h2] at h
      cases hr : Parameter.compute_uri_value w p v with
      | ok r => rw [hr] at h; exact absurd h (by simp)
      | error e2 =>
        rw [hr] at h
        injection h with h3
        subst h3
        exact compute_uri_value_err hr
    · rw [if_neg h2] at h
      exact absurd h (by simp)

theorem compute_final_params_err {w : World} {keys : List String}
    {user : List (String × String)} {sd : Option String} :
    ∀ (ps : List (String × Parameter)) {e : PErr},
    compute_final_params w keys user sd ps = .error e → isMissingErr e = false := by
  intro ps
  induction ps with
  | nil =>
    intro e h
    simp [compute_final_params] at h
  | cons kv rest ih =>
    intro e h
    obtain ⟨key, param_obj⟩ := kv
    simp only [compute_final_params] at h
    split at h
    · injection h with h2
      subst h2
      exact compute_value_err (by assumption)
    · split at h
      · injection h with h2
        subst h2
        exact ih (by assumption)
      · exact absurd h (by simp)

theorem missingParamsOf_error {α : Type} {e : PErr} (h : isMissingErr e = false) :
    missingParamsOf (α := α) (.error e) = none := by
  cases e <;> simp_all [isMissingErr, missingParamsOf]

theorem validate_missing_empty_user (ep : EntryPoint) :
    (ep.parameters.filter
      (fun kv => (lookupA ([] : List (String × String)) kv.1).isNone && kv.2.default.isNone))
      = ep.parameters.filter (fun kv => kv.2.default.isNone) := by
  simp [lookupA]

/-- C5: with no user values, `compute_parameters` fails with the
missing-parameters `ExecutionException` exactly when some declared
parameter lacks a default, and the reported list is the full list of
defaultless declared names, in declaration order. -/
theorem C5_missing_parameters (w : World) (ep : EntryPoint) (d : Option String) :
    missingParamsOf (ep.compute_parameters w none d) =
      (if ((ep.parameters.filter (fun kv => kv.2.default.isNone)).map (·.1)).isEmpty
       then none
       else some ((ep.parameters.filter (fun kv => kv.2.default.isNone)).map (·.1))) := by
  simp only [EntryPoint.compute_parameters, EntryPoint.validate_parameters,
    validate_missing_empty_user]
  by_cases hm : (((ep.parameters.filter (fun kv => kv.2.default.isNone)).map (·.1)).isEmpty) = true
  · rw [if_pos hm, if_pos hm]
    cases hr : compute_final_params w (ep.parameters.map (·.1)) [] d ep.parameters with
    | ok r =>
      obtain ⟨fp, created⟩ := r
      rfl
    | error e =>
      exact missingParamsOf_error (compute_final_params_err _ hr)
  · rw [if_neg hm, if_neg hm]
    rfl

/-- C10: passing `None` as the user-parameter mapping behaves exactly like
passing the empty mapping: `compute_parameters` gives the same validation
outcome and the same declared/extra mappings (and the same
directory-creation trace). -/
theorem C10_none_user_parameters (w : World) (ep : EntryPoint) (d : Option String) :
    ep.compute_parameters w none d = ep.compute_parameters w (some []) d := rfl

theorem compute_parameters_ok_shape {w : World} {ep : EntryPoint}
    {user : Option (List (String × String))} {d : Option String}
    {params extra : List (String × String)} {created : List String}
    (h : ep.compute_parameters w user d = .ok (params, extra, created)) :
    (∃ fp, params = sanitize_final fp) ∧ (∃ xp, extra = sanitize_extra xp) := by
  unfold EntryPoint.compute_parameters at h
  cases user <;>
    · simp only [] at h
      split at h
      · exact absurd h (by simp)
      · split at h
        · exact absurd h (by simp)
        · injection h with h2
          exact ⟨⟨_, (congrArg Prod.fst h2).symm⟩, ⟨_, (congrArg (fun t => t.2.1) h2).symm⟩⟩

/-- C7: `compute_command` renders the template over the sanitized declared
values and appends one `--name value` chunk per extra parameter, joined by
single spaces; every declared and extra value is shell-escaped; and on the
spec's concrete examples it yields `"echo hi"` and
`"echo hi --foo bar"`. -/
theorem C7_compute_command :
    (∀ (w : World) (ep : EntryPoint) (user : Option (List (String × String)))
        (d : Option String) (params extra : List (String × String)) (created : List String),
      ep.compute_parameters w user d = .ok (params, extra, created) →
      ep.compute_command w user d =
        (match pyFormat ep.command params with
         | .error e => .error e
         | .ok rendered =>
            .ok (String.intercalate " "
              (rendered :: extra.map (fun kv => "--" ++ kv.1 ++ " " ++ kv.2)))))
    ∧ (∀ (w : World) (ep : EntryPoint) (user : Option (List (String × String)))
        (d : Option String) (params extra : List (String × String)) (created : List String),
      ep.compute_parameters w user d = .ok (params, extra, created) →
      (∀ kv ∈ params, ∃ raw, kv.2 = shlexQuote raw) ∧
      (∀ kv ∈ extra, ∃ raw, kv.2 = shlexQuote raw))
    ∧ EntryPoint.compute_command wRemote epGreeting none none = .ok "echo hi"
    ∧ EntryPoint.compute_command wRemote epGreeting (some [("foo", "bar")]) none =
        .ok "echo hi --foo bar" := by
  refine ⟨?_, ?_, ?_, ?_⟩
  · intro w ep user d params extra created hok
    unfold EntryPoint.compute_command
    rw [hok]
  · intro w ep user d params extra created hok
    obtain ⟨⟨fp, hp⟩, ⟨xp, hx⟩⟩ := compute_parameters_ok_shape hok
    subst hp
    subst hx
    constructor
    · intro kv hkv
      obtain ⟨kv0, hkv0, rfl⟩ := List.mem_map.mp hkv
      exact ⟨pyStrOpt kv0.2, rfl⟩
    · intro kv hkv
      obtain ⟨kv0, hkv0, rfl⟩ := List.mem_map.mp hkv
      exact ⟨kv0.2, rfl⟩
  · rfl
  · rfl

theorem C7_compute_command_witness :
    EntryPoint.compute_command wRemote epGreeting (some [("foo", "bar")]) none =
      (match pyFormat epGreeting.command [("greeting", "hi")] with
       | .error e => .error e
       | .ok rendered =>
          .ok (String.intercalate " "
            (rendered :: [("foo", "bar")].map (fun kv => "--" ++ kv.1 ++ " " ++ kv.2)))) :=
  C7_compute_command.1 wRemote epGreeting (some [("foo", "bar")]) none
    [("greeting", "hi")] [("foo", "bar")] [] (by rfl)

theorem compute_path_value_remote {w : World} {p : Parameter} {v : String}
    {sd : String} {kp : Nat}
    (hremote : w.get_local_path_or_none v = none)
    (hfresh : w.path_exists (pjoin sd ("param_" ++ natDec kp)) = false) :
    Parameter.compute_path_value w p (some v) sd kp =
      .ok (w.download_artifact_from_uri v (pjoin sd ("param_" ++ natDec kp)),
        [pjoin sd ("param_" ++ natDec kp)]) := by
  unfold Parameter.compute_path_value
  simp [hremote, hfresh]

theorem compute_value_path_remote {w : World} {p : Parameter} {v : String}
    {d : String} {kp : Nat}
    (hty : p.type = "path") (hd : d ≠ "")
    (hremote : w.get_local_path_or_none v = none)
    (hfresh : w.path_exists (pjoin d ("param_" ++ natDec kp)) = false) :
    p.compute_value w (some v) (some d) kp =
      .ok (some (w.download_artifact_from_uri v (pjoin d ("param_" ++ natDec kp))),
        [pjoin d ("param_" ++ natDec kp)]) := by
  unfold Parameter.compute_value
  have hc : (optTruthy (some d) && (p.type == "path")) = true := by
    simp [optTruthy, hd, hty]
  rw [if_pos hc]
  simp only [Option.getD_some]
  rw [compute_path_value_remote hremote hfresh]

/-- C6: inside `compute_parameters`, the parameter at declaration position
`i` is resolved with ordinal index `i` (`parameter_keys.index(key)`); when
it is `path`-typed, a scratch directory is given and its value is not an
existing local path, resolution creates exactly the one fresh subdirectory
`param_<i>` under the scratch directory; and two distinct ordinal
positions never yield the same subdirectory. -/
theorem C6_path_param_ordinal (w : World) (ep : EntryPoint)
    (user : List (String × String)) (d : String) (i : Nat) (key : String)
    (p : Parameter) (v : String)
    (hnd : (ep.parameters.map (·.1)).Nodup)
    (hget : ep.parameters.get? i = some (key, p))
    (hty : p.type = "path")
    (hval : (match lookupA user key with
             | some u => some u
             | none => p.default) = some v)
    (hd : d ≠ "")
    (hremote : w.get_local_path_or_none v = none)
    (hfresh : w.path_exists (pjoin d ("param_" ++ natDec i)) = false) :
    pyIndex (ep.parameters.map (·.1)) key = i
    ∧ p.compute_value w
        (match lookupA user key with
         | some u => some u
         | none => p.default) (some d) (pyIndex (ep.parameters.map (·.1)) key)
      = .ok (some (w.download_artifact_from_uri v (pjoin d ("param_" ++ natDec i))),
             [pjoin d ("param_" ++ natDec i)])
    ∧ ∀ j, j ≠ i →
        pjoin d ("param_" ++ natDec i) ≠ pjoin d ("param_" ++ natDec j) := by
  have hkey : (ep.parameters.map (·.1)).get? i = some key := by
    rw [List.get?_map, hget]
    rfl
  have hpi : pyIndex (ep.parameters.map (·.1)) key = i := pyIndex_get hnd hkey
  refine ⟨hpi, ?_, ?_⟩
  · rw [hpi, hval]
    exact compute_value_path_remote hty hd hremote hfresh
  · intro j hj
    exact pjoin_param_ne (Ne.symm hj)

theorem C6_path_param_ordinal_witness :
    pyIndex (epTwoPaths.parameters.map (·.1)) "data2" = 1
    ∧ (Parameter.mk "data2" "path" (some "s3://bucket/x")).compute_value wRemote
        (match lookupA ([] : List (String × String)) "data2" with
         | some u => some u
         | none => (Parameter.mk "data2" "path" (some "s3://bucket/x")).default)
        (some "/scratch") (pyIndex (epTwoPaths.parameters.map (·.1)) "data2")
      = .ok (some (wRemote.download_artifact_from_uri "s3://bucket/x"
              (pjoin "/scratch" ("param_" ++ natDec 1))),
             [pjoin "/scratch" ("param_" ++ natDec 1)])
    ∧ pjoin "/scratch" ("param_" ++ natDec 1) ≠ pjoin "/scratch" ("param_" ++ natDec 0) := by
  have h := C6_path_param_ordinal wRemote epTwoPaths [] "/scratch" 1 "data2"
    (Parameter.mk "data2" "path" (some "s3://bucket/x")) "s3://bucket/x"
    (by decide) (by rfl) rfl rfl (by decide) rfl rfl
  exact ⟨h.1, h.2.1, h.2.2 0 (by decide)⟩

theorem C3_counterexample :
    (selectRunEnvironment false projBoth).1 = some EnvKind.singularity
    ∧ ¬ (selectRunEnvironment false projBoth).1 = some EnvKind.docker := by
  constructor
  · rfl
  · decide

/-- C3 (amended): in `LocalBackend.run`'s environment-selection step, when
a project has both `docker_env` and `singularity_env` set, the singularity
environment is the one selected and activated — the later `if` overwrites
the docker assignment, so singularity takes precedence over docker. -/
theorem C3_selection_precedence (use_conda : Bool) (project : Project)
    (hd : envTruthy project.docker_env = true)
    (hs : envTruthy project.singularity_env = true) :
    selectRunEnvironment use_conda project = (some EnvKind.singularity, "singularity") := by
  unfold selectRunEnvironment
  simp [hd, hs]

theorem C3_selection_precedence_witness :
    selectRunEnvironment false projBoth = (some EnvKind.singularity, "singularity") :=
  C3_selection_precedence false projBoth rfl rfl

theorem C9_counterexample :
    Project.get_entry_point none projEmpty "foo.txt" =
      .error (.unsupportedEntryPoint "foo.txt" [] [".py", ".sh"])
    ∧ exceptIsOk (Project.get_entry_point none projEmpty "foo.R") = true
    ∧ ([".py", ".sh"].contains ".R") = false := by
  refine ⟨rfl, rfl, by decide⟩

/-- C9 (amended): an undeclared entry-point name with extension `.py`,
`.sh` or `.R` synthesizes a zero-parameter entry point; any other
extension fails with the `ExecutionException` that enumerates the declared
entry points and the extensions `[".py", ".sh"]` — the synthesized `.R`
extension is omitted from that enumeration. -/
theorem C9_implicit_entry_points (shellEnv : Option String) (proj : Project) (ep : String)
    (hnot : lookupA proj.entry_points ep = none) :
    (((splitext ep).2 = ".py" ∨ (splitext ep).2 = ".sh" ∨ (splitext ep).2 = ".R") →
      ∃ epObj, Project.get_entry_point shellEnv proj ep = .ok epObj
        ∧ epObj.parameters = [] ∧ epObj.name = ep)
    ∧ ((splitext ep).2 ≠ ".py" → (splitext ep).2 ≠ ".sh" → (splitext ep).2 ≠ ".R" →
      Project.get_entry_point shellEnv proj ep =
        .error (.unsupportedEntryPoint ep (proj.entry_points.map (·.1)) [".py", ".sh"])) := by
  unfold Project.get_entry_point
  rw [hnot]
  constructor
  · rintro (hext | hext | hext) <;>
      simp only [hext, lookupA] <;>
      norm_num <;>
      exact ⟨_, rfl, rfl, rfl⟩
  · intro h1 h2 h3
    simp only [lookupA, if_neg (Ne.symm h1), if_neg (Ne.symm h2), if_neg h3]
    rfl

theorem C9_implicit_entry_points_witness :
    Project.get_entry_point none projEmpty "foo.txt" =
      .error (.unsupportedEntryPoint "foo.txt" ([] : List String) [".py", ".sh"]) :=
  (C9_implicit_entry_points none projEmpty "foo.txt" rfl).2
    (by decide) (by decide) (by decide)

/-- C8: `cancel` on an already-exited process is a no-op and never raises;
on a live process it signals the whole process group iff the child leads
its own group and only the child otherwise; a no-such-process race is
swallowed (logged, not raised); and in every live-process case a blocking
`wait` follows, even when the signal step errored. -/
theorem C8_cancel_behavior (p : ProcSt) :
    (p.pollResult.isSome = true →
      LocalSubmittedRun.cancel p =
        { signaled := none, loggedRace := false, waited := false, raised := false })
    ∧ (LocalSubmittedRun.cancel p).raised = false
    ∧ (p.pollResult = none → p.signalRace = false → p.pid = p.pgid →
        (LocalSubmittedRun.cancel p).signaled = some (.killpg p.pid SIGKILL))
    ∧ (p.pollResult = none → p.signalRace = false → p.pid ≠ p.pgid →
        (LocalSubmittedRun.cancel p).signaled = some (.killChild p.pid))
    ∧ (p.pollResult = none → p.signalRace = true →
        (LocalSubmittedRun.cancel p).signaled = none
        ∧ (LocalSubmittedRun.cancel p).loggedRace = true)
    ∧ (p.pollResult = none → (LocalSubmittedRun.cancel p).waited = true) := by
  cases hpoll : p.pollResult <;>
    cases hrace : p.signalRace <;>
    by_cases hpg : p.pid = p.pgid <;>
    simp_all [LocalSubmittedRun.cancel]

theorem C8_cancel_behavior_witness :
    LocalSubmittedRun.cancel procExited =
      { signaled := none, loggedRace := false, waited := false, raised := false }
    ∧ (LocalSubmittedRun.cancel procLeader).signaled = some (.killpg 100 SIGKILL)
    ∧ (LocalSubmittedRun.cancel procNonLeader).signaled = some (.killChild 100)
    ∧ (LocalSubmittedRun.cancel procRace).loggedRace = true
    ∧ (LocalSubmittedRun.cancel procRace).waited = true
    ∧ (LocalSubmittedRun.cancel procRace).raised = false := by
  refine ⟨(C8_cancel_behavior procExited).1 rfl,
    (C8_cancel_behavior procLeader).2.2.1 rfl rfl rfl,
    (C8_cancel_behavior procNonLeader).2.2.2.1 rfl rfl (by decide),
    ((C8_cancel_behavior procRace).2.2.2.2.1 rfl rfl).2,
    (C8_cancel_behavior procRace).2.2.2.2.2 rfl,
    (C8_cancel_behavior procRace).2.1⟩

/-- C1: `_run_entry_point` never returns a run handle — with an
environment configured it spawns `bash -c <command>` in the environment's
working directory with the merged environment variables, but then
`LocalSubmittedRun(run_id, process)` raises `TypeError` because
`__init__` accepts only `command_proc`; with no environment configured it
raises `AttributeError` on `None` before spawning. -/
theorem C1_run_entry_point_result :
    (∀ (w : OsWorld) (command : String) (renv : Option RunEnvSt),
      exceptIsOk (run_entry_point w command renv).result = false)
    ∧ (run_entry_point osW "echo hi" (some renv1)).spawned =
        some { argv := ["bash", "-c", "echo hi"], cwd := "/proj"
               env := [("PATH", "/usr/bin"), (MLFLOW_RUN_ID_ENV_VAR, "run123"),
                       (MLFLOW_TRACKING_URI_ENV_VAR, "http://localhost:5000"),
                       (MLFLOW_EXPERIMENT_ID_ENV_VAR, "0")] }
    ∧ (run_entry_point osW "echo hi" (some renv1)).result =
        .error (.typeError ("__init__() takes 2 positional arguments but " ++
          natDec 3 ++ " were given"))
    ∧ (run_entry_point osW "echo hi" none).result =
        .error (.attributeError "NoneType object has no attribute get_run_env_vars") := by
  refine ⟨?_, rfl, rfl, rfl⟩
  intro w command renv
  cases renv with
  | none => rfl
  | some r => rfl

/-- C2: on a directory containing no file whose lowercased name is
`mlproject`, `_find_mlproject` returns the bare `None`, and
`load_project`'s tuple unpacking of that `None` raises `TypeError`
instead of producing the empty-descriptor `Project` its own body is
prepared to build. -/
theorem C2_load_project_type_error :
    find_mlproject fsNoDescriptor "/proj" = FindResult.bareNone
    ∧ load_project fsNoDescriptor ylEmpty "/proj" =
        .error (.typeError "cannot unpack non-iterable NoneType object") := by
  exact ⟨rfl, rfl⟩

theorem find_mlproject_case_insensitive_first :
    find_mlproject fsTwoDescriptors "/proj" = .found "/proj/MLProject" "/proj" := rfl

theorem C4_counterexample :
    (prepare_environment dwFailBuild projDocker (some "abc1234")).2 = .error .imageBuildError
    ∧ DockerEvent.rmtreeStaging "/home/u/.tmp/stage1" ∈
        (prepare_environment dwFailBuild projDocker (some "abc1234")).1
    ∧ ¬ DockerEvent.removeTar "/home/u/.tmp/tar1" ∈
        (prepare_environment dwFailBuild projDocker (some "abc1234")).1 := by
  refine ⟨rfl, by decide, by decide⟩

/-- C4 (amended): the staging directory is removed before
`prepare_environment` returns in every case (the `finally` block), but the
packaged build-context tarfile is removed only when staging, tarring, the
image build and the removal itself all succeed; when only the removal
fails it is logged and the call still succeeds.  On a failed image build
the tarfile is not removed. -/
theorem C4_build_ctx_cleanup (w : DockerWorld) (project : Project)
    (gitCommit : Option String) :
    DockerEvent.rmtreeStaging w.stagingName ∈ (prepare_environment w project gitCommit).1
    ∧ (DockerEvent.removeTar w.tarName ∈ (prepare_environment w project gitCommit).1
        ↔ (w.copytreeOk = true ∧ w.makeTarOk = true ∧ w.buildOk = true
            ∧ w.removeTarOk = true))
    ∧ (w.copytreeOk = true → w.makeTarOk = true → w.buildOk = true →
        w.removeTarOk = false →
        DockerEvent.logRemoveFailed w.tarName ∈ (prepare_environment w project gitCommit).1
        ∧ (prepare_environment w project gitCommit).2 = .ok ()) := by
  obtain ⟨wd, tr, sn, tn, iid, c, m, b, r⟩ := w
  cases c <;> cases m <;> cases b <;> cases r <;>
    simp [prepare_environment, create_docker_build_ctx]

theorem C4_build_ctx_cleanup_witness :
    DockerEvent.logRemoveFailed "/home/u/.tmp/tar1" ∈
      (prepare_environment dwRemoveFail projDocker (some "abc1234")).1
    ∧ (prepare_environment dwRemoveFail projDocker (some "abc1234")).2 = .ok () :=
  (C4_build_ctx_cleanup dwRemoveFail projDocker (some "abc1234")).2.2 rfl rfl rfl rfl

end MLF
